import Mathlib

/-!
Verification model of the two provisioning scripts in `scripts/azure/`:
`keyvault_sp_restricted.py` (namespace `KV`) and `create_sp_for_swa_rg.py`
(namespace `SWA`).

Each script is a straight-line interactive program whose only effects are:
reading the defaults file, reading operator input lines, spawning external
`az` CLI subprocesses, printing to stdout, and exiting the process.  We model
a run as a computation over an abstract environment `Env` that supplies the
defaults file, the operator's input lines (a stream, one per `input()` call)
and the external command results (a stream, one per subprocess/`os.system`
call, consumed in call order).  The run state `St` records the trace of
issued external commands, the prompts shown, and the lines printed.

External command stdout is modelled by `AzOut`: either raw text (`str`), or a
JSON object of string fields (`json`), standing for the string that
`json.loads` would parse into that dictionary.  Python's `sys.exit(n)` and an
uncaught exception (which terminates CPython with status 1) are both modelled
by the `exited` outcome.
-/

/-- Abstract stdout of an external command: raw text, or a JSON object with
string-valued fields (the environment presents structured output already
parsed; `json.loads` succeeds exactly on the `json` constructor). -/
inductive AzOut where
  | str : String → AzOut
  | json : List (String × String) → AzOut

/-- Result of one external command: exit status, stdout, stderr. -/
structure CmdResult where
  returncode : Nat
  stdout : AzOut
  stderr : String

/-- Python `str.strip()`: remove leading and trailing whitespace.  Defined on
the character list so that it evaluates by kernel reduction. -/
def pyStrip (s : String) : String :=
  ⟨((s.data.dropWhile Char.isWhitespace).reverse.dropWhile Char.isWhitespace).reverse⟩

/-- Split a character list at newline characters (helper for `splitLines`). -/
def splitChars : List Char → List (List Char)
  | [] => [[]]
  | c :: rest =>
    if c = Char.ofNat 10 then [] :: splitChars rest
    else
      match splitChars rest with
      | [] => [[c]]
      | l :: ls => (c :: l) :: ls

/-- Python `str.splitlines()` for `\n`-separated text (the separator of the
modelled TSV outputs; trailing empty segments, where the two differ, are
filtered out by the one caller exactly as the source filters empty names). -/
def splitLines (s : String) : List String := (splitChars s.data).map (fun l => ⟨l⟩)

/-- Python `str.lower()` (ASCII case mapping). -/
def pyLower (s : String) : String := ⟨s.data.map Char.toLower⟩

/-- A run of `n` equals-sign characters (banner text). -/
def eqRun (n : Nat) : String := String.mk (List.replicate n (Char.ofNat 61))

/-- The `AZURE CREDENTIALS` banner line both scripts print. -/
def credsBanner : String := "\n" ++ eqRun 18 ++ " AZURE CREDENTIALS " ++ eqRun 18

/-- The closing banner line both scripts print. -/
def closeBanner : String := eqRun 55

/-- A single-quote character, as a string (used inside CLI argument text). -/
def squote : String := (Char.ofNat 39).toString

/-- A double-quote character, as a string. -/
def dquote : String := (Char.ofNat 34).toString

/-- The string a given `AzOut` denotes: raw text itself, a JSON object its
serialized form (no escaping; the ids handled here need none). -/
def AzOut.toStr : AzOut → String
  | .str s => s
  | .json fs =>
      "\x7b" ++ String.intercalate (", ")
        (fs.map (fun kv => dquote ++ kv.1 ++ dquote ++ ": " ++ dquote ++ kv.2 ++ dquote))
      ++ "\x7d"

/-- `.strip()` applied to a command's stdout: trims raw text; the serialized
form of a JSON object carries no surrounding whitespace. -/
def AzOut.strip : AzOut → AzOut
  | .str s => .str (pyStrip s)
  | .json fs => .json fs

/-- `json.loads` on captured stdout: succeeds exactly when the output is a
JSON object of string fields. -/
def json_loads : AzOut → Option (List (String × String))
  | .str _ => none
  | .json fs => some fs

/-- Python `data[key]` on a parsed JSON dict (`none` = `KeyError`). -/
def jfield (fs : List (String × String)) (k : String) : Option String :=
  (fs.find? (fun kv => kv.1 = k)).map (fun kv => kv.2)

/-- The abstract outside world of one run: whether `defaults.toml` exists,
its key/value content, the operator's input lines, and the result of the
`k`-th external command spawned. -/
structure Env where
  defaultsPresent : Bool
  defaults : String → Option String
  inputs : Nat → String
  resp : Nat → CmdResult

/-- Observable run state: how many input lines and external commands were
consumed, the argv of every external command issued (in order), the prompts
shown, and the lines printed to stdout. -/
structure St where
  inIdx : Nat
  azIdx : Nat
  calls : List (List String)
  prompts : List String
  printed : List String

/-- The initial state of a fresh process. -/
def St.init : St := ⟨0, 0, [], [], []⟩

/-- Outcome of running a script fragment: normal completion with a value, or
process termination with an exit status (`sys.exit` / uncaught exception). -/
inductive Res (α : Type) where
  | ok : α → St → Res α
  | exited : Nat → St → Res α

/-- The run monad: a reader over the environment, state passing over `St`,
with early process exit. -/
def M (α : Type) : Type := Env → St → Res α

def M.pure {α : Type} (a : α) : M α := fun _ s => .ok a s

def M.bind {α β : Type} (x : M α) (f : α → M β) : M β := fun env s =>
  match x env s with
  | .ok a s1 => f a env s1
  | .exited c s1 => .exited c s1

instance : Monad M where
  pure := M.pure
  bind := M.bind

/-- `sys.exit code` (also used for CPython's status-1 exit on an uncaught
exception). -/
def exitM {α : Type} (code : Nat) : M α := fun _ s => .exited code s

/-- An uncaught Python exception: CPython terminates with status 1. -/
def crashM {α : Type} : M α := exitM 1

/-- `print(line)`. -/
def emit (line : String) : M Unit := fun _ s =>
  .ok () { s with printed := s.printed ++ [line] }

/-- Read one operator input line (consumes the next line of the stream),
recording the prompt text that `input()` displayed. -/
def readLine (shown : String) : M String := fun env s =>
  .ok (env.inputs s.inIdx)
    { s with inIdx := s.inIdx + 1, prompts := s.prompts ++ [shown] }

/-- Spawn the next external command: record its argv, consume the next
`CmdResult` from the environment. -/
def spawn (argv : List String) : M CmdResult := fun env s =>
  .ok (env.resp s.azIdx)
    { s with azIdx := s.azIdx + 1, calls := s.calls ++ [argv] }

@[simp] theorem bind_def {α β : Type} (x : M α) (f : α → M β) :
    x >>= f = M.bind x f := rfl

@[simp] theorem pure_def {α : Type} (a : α) :
    (Pure.pure a : M α) = M.pure a := rfl

@[simp] theorem run_bind {α β : Type} (x : M α) (f : α → M β) (env : Env) (s : St) :
    M.bind x f env s =
      match x env s with
      | .ok a s1 => f a env s1
      | .exited c s1 => .exited c s1 := rfl

@[simp] theorem run_pure {α : Type} (a : α) (env : Env) (s : St) :
    M.pure a env s = .ok a s := rfl

@[simp] theorem pyStrip_empty : pyStrip ("") = "" := rfl

@[simp] theorem toStr_str (s : String) : AzOut.toStr (AzOut.str s) = s := rfl

@[simp] theorem strip_str (s : String) : AzOut.strip (AzOut.str s) = AzOut.str (pyStrip s) := rfl

@[simp] theorem strip_json (fs : List (String × String)) :
    AzOut.strip (AzOut.json fs) = AzOut.json fs := rfl

@[simp] theorem json_loads_str (s : String) : json_loads (AzOut.str s) = none := rfl

@[simp] theorem json_loads_json (fs : List (String × String)) :
    json_loads (AzOut.json fs) = some fs := rfl

/-- The serialized form of a JSON object is never the empty string. -/
@[simp] theorem toStr_json_ne_empty (fs : List (String × String)) :
    (AzOut.toStr (AzOut.json fs) = "") = False := by
  simp only [eq_iff_iff, iff_false]
  intro h
  have hlen := congrArg String.length h
  simp [AzOut.toStr, String.length_append] at hlen
  exact absurd hlen.1.1 (by decide)

@[simp] theorem run_exitM {α : Type} (c : Nat) (env : Env) (s : St) :
    (exitM c : M α) env s = .exited c s := rfl

@[simp] theorem run_crashM {α : Type} (env : Env) (s : St) :
    (crashM : M α) env s = .exited 1 s := rfl

@[simp] theorem run_emit (line : String) (env : Env) (s : St) :
    emit line env s = .ok () { s with printed := s.printed ++ [line] } := rfl

@[simp] theorem run_readLine (shown : String) (env : Env) (s : St) :
    readLine shown env s =
      .ok (env.inputs s.inIdx)
        { s with inIdx := s.inIdx + 1, prompts := s.prompts ++ [shown] } := rfl

@[simp] theorem run_spawn (argv : List String) (env : Env) (s : St) :
    spawn argv env s =
      .ok (env.resp s.azIdx)
        { s with azIdx := s.azIdx + 1, calls := s.calls ++ [argv] } := rfl

/-- Read the environment (used to model filesystem / stdin access). -/
def getEnvM : M Env := fun env s => .ok env s

@[simp] theorem run_getEnvM (env : Env) (s : St) :
    getEnvM env s = .ok env s := rfl

/-- Uniform result of the service-principal lookup (`get_sp`): in the source a
4-tuple `(found, client_id, object_id, tenant_id)` whose last three components
are `None` exactly when `found` is `False`; typed here as an inductive. -/
inductive SpLookup where
  | notFound : SpLookup
  | found : String → String → String → SpLookup

/-- The value `prompt` returns for raw input `line` and default `default`:
`val = line.strip(); return val if val else default`. -/
def promptValue (line : String) (default : String) : String :=
  if pyStrip line = "" then default else pyStrip line

/-- Python rendering of a maybe-`None` string into an f-string. -/
def pyStr : Option String → String
  | some s => s
  | none => "None"

/-- The text `json.dumps({...}, indent=2)` produces for the final credential
report (string escaping omitted: the values handled need none). -/
def credsJson (client_id client_secret tenant_id subscription_id : String) : String :=
  "\x7b\n  " ++ dquote ++ "clientId" ++ dquote ++ ": " ++ dquote ++ client_id ++ dquote
  ++ ",\n  " ++ dquote ++ "clientSecret" ++ dquote ++ ": " ++ dquote ++ client_secret ++ dquote
  ++ ",\n  " ++ dquote ++ "tenantId" ++ dquote ++ ": " ++ dquote ++ tenant_id ++ dquote
  ++ ",\n  " ++ dquote ++ "subscriptionId" ++ dquote ++ ": " ++ dquote ++ subscription_id ++ dquote
  ++ "\n\x7d"

namespace KV

/-- `load_defaults` of `keyvault_sp_restricted.py`: exits 1 with a message if
`defaults.toml` is absent, else returns the parsed key/value mapping. -/
def load_defaults : M (String → Option String) := do
  let env ← getEnvM
  if env.defaultsPresent then pure env.defaults
  else do
    emit ("Defaults file defaults.toml not found!")
    exitM 1

/-- `prompt(msg, default)`: shows the message and default, reads one line,
returns the stripped input if non-empty, else the default. -/
def prompt (msg : String) (default : String) : M String := do
  let line ← readLine (msg ++ " [" ++ default ++ "]: ")
  pure (promptValue line default)

/-- `az(cmd, capture_output)`: with capture, a failing command prints the
failing command line and stderr and exits 1, a succeeding one returns its
stripped stdout; without capture (`os.system` branch), a failing command
exits 1 silently and a succeeding one returns `None` (unused by its one
caller; modelled as empty output). -/
def az (cmd : List String) (capture_output : Bool) : M AzOut := do
  let full_cmd := "az" :: cmd
  if capture_output then do
    let result ← spawn full_cmd
    if result.returncode ≠ 0 then do
      emit ("Command failed: " ++ String.intercalate (" ") full_cmd)
      emit result.stderr
      exitM 1
    else
      pure result.stdout.strip
  else do
    let result ← spawn full_cmd
    if result.returncode ≠ 0 then exitM 1
    else pure (AzOut.str (""))

/-- `get_sp(sp_name)`: looks the principal up by name.  The body sits in a
`try`/`except Exception` returning the not-found tuple: empty output, a JSON
parse failure and a missing field all yield `notFound`.  `sys.exit` raised
inside `az` is a `SystemExit`, which `except Exception` does not catch, so it
propagates (modelled by the monad's `exited` short-circuit). -/
def get_sp (sp_name : String) : M SpLookup := do
  let out ← az (["ad", "sp", "show", "--id", sp_name]) true
  if out.toStr = "" then pure SpLookup.notFound
  else
    match json_loads out with
    | none => pure SpLookup.notFound
    | some data =>
      match jfield data ("appId"), jfield data ("id") with
      | some client_id, some object_id => do
          let tenant_id ← az (["ad", "sp", "show", "--id", client_id, "--query",
            "appOwnerOrganizationId", "-o", "tsv"]) true
          pure (SpLookup.found client_id object_id tenant_id.toStr)
      | _, _ => pure SpLookup.notFound

/-- `create_sp(sp_name)`: creation call, then one object-id lookup.  Empty
creation output exits 1 with a message; `json.loads`/`KeyError` failures here
are uncaught (CPython exits with status 1). -/
def create_sp (sp_name : String) : M (String × String × String × String) := do
  let out ← az (["ad", "sp", "create-for-rbac", "--name", sp_name, "--skip-assignment",
    "--query", "\x7bclientId: appId, clientSecret: password, tenantId: tenant\x7d",
    "-o", "json"]) true
  if out.toStr = "" then do
    emit ("❌ Failed to create Service Principal")
    exitM 1
  else
    match json_loads out with
    | none => crashM
    | some d =>
      match jfield d ("clientId"), jfield d ("clientSecret"), jfield d ("tenantId") with
      | some client_id, some client_secret, some tenant_id => do
          let object_id ← az (["ad", "sp", "show", "--id", client_id, "--query", "id",
            "-o", "tsv"]) true
          pure (client_id, client_secret, tenant_id, object_id.toStr)
      | _, _, _ => crashM

/-- `reset_sp_secret(client_id)`: one credential-reset call, returns the new
password text. -/
def reset_sp_secret (client_id : String) : M String := do
  let secret ← az (["ad", "sp", "credential", "reset", "--id", client_id, "--query",
    "password", "-o", "tsv"]) true
  pure secret.toStr

/-- `assign_rbac(object_id, role, scope)`: one role-assignment call, run
without output capture. -/
def assign_rbac (object_id : String) (role : String) (scope : String) : M Unit := do
  let _ ← az (["role", "assignment", "create", "--assignee", object_id, "--role", role,
    "--scope", scope]) false
  pure ()

/-- `get_secret_names(vault_name, prefix)`: lists the vault's secret names
filtered server-side by prefix; empty output gives `[]`, otherwise the
non-empty lines of the TSV output. -/
def get_secret_names (vault_name : String) (pfx : String) : M (List String) := do
  let out ← az (["keyvault", "secret", "list", "--vault-name", vault_name, "--query",
    "[?starts_with(name, " ++ squote ++ pfx ++ squote ++ ")].name", "-o", "tsv"]) true
  if out.toStr = "" then pure []
  else pure ((splitLines (out.toStr)).filter (fun n => n ≠ ""))

/-- The vault-level scope path assembled in `main`. -/
def vaultScope (subscription_id resource_group keyvault_name : String) : String :=
  "/subscriptions/" ++ subscription_id ++ "/resourceGroups/" ++ resource_group
  ++ "/providers/Microsoft.KeyVault/vaults/" ++ keyvault_name

/-- The `for name in secret_names:` loop of `main`: one print and one
role assignment per matched secret, scope ending in `/secrets/<name>`. -/
def assignSecrets (object_id subscription_id resource_group keyvault_name : String) :
    List String → M Unit
  | [] => pure ()
  | name :: rest => do
      emit ("🔐 Assigning access to secret: " ++ name)
      assign_rbac object_id ("Key Vault Secrets User")
        (vaultScope subscription_id resource_group keyvault_name ++ "/secrets/" ++ name)
      assignSecrets object_id subscription_id resource_group keyvault_name rest

/-- `main()` of `keyvault_sp_restricted.py`, line for line. -/
def main : M Unit := do
  let defaults ← load_defaults
  let orgPfx := (defaults ("org_prefix")).getD ("pfx")
  let tenantD := (defaults ("azure_tenant_id")).getD ("")
  let subD := (defaults ("azure_subscription_id")).getD ("")
  let rgD := (defaults ("azure_resource_group")).getD ("")
  let kvD := (defaults ("azure_keyvault_name")).getD ("")
  let _github_org := (defaults ("github_org")).getD ("")
  let repo_name ← prompt ("Enter the Git repository name") (orgPfx ++ "-repo")
  let sp_name := repo_name ++ "-sp"
  let tenant_id0 ← prompt ("Azure Tenant ID") tenantD
  let subscription_id ← prompt ("Azure Subscription ID") subD
  let resource_group ← prompt ("Azure Resource Group") rgD
  let keyvault_name ← prompt ("Azure Key Vault name") kvD
  emit ("\n🔐 Choose Key Vault access scope for repo")
  emit ("1. Grant access to all secrets in the Key Vault")
  emit ("2. Grant access to secrets matching a prefix")
  let scope_choice ← prompt ("Enter 1 or 2") ("1")
  let secretPfxO ←
    if scope_choice = "2" then do
      let p ← prompt ("Enter the prefix to match secrets (e.g., dev-github-arc-)")
        (repo_name ++ "-")
      pure (some p)
    else pure (none : Option String)
  let lookup ← get_sp sp_name
  let resolved ←
    match lookup with
    | SpLookup.found client_id object_id real_tenant_id => do
        emit ("✅ Service Principal " ++ squote ++ sp_name ++ squote ++ " exists. Reusing it.")
        let client_secret ← reset_sp_secret client_id
        if client_secret = "" then do
          emit ("❌ Failed to reset SP secret")
          exitM 1
        else
          pure (client_id, client_secret,
            (if tenant_id0 = "" then real_tenant_id else tenant_id0), object_id)
    | SpLookup.notFound => do
        emit ("==> Creating Service Principal: " ++ sp_name)
        let r ← create_sp sp_name
        emit ("✅ Service Principal created: " ++ r.1)
        pure r
  let client_id := resolved.1
  let client_secret := resolved.2.1
  let tenant_id := resolved.2.2.1
  let object_id := resolved.2.2.2
  if scope_choice = "2" then do
    let secret_names ← get_secret_names keyvault_name (pyStr secretPfxO)
    if secret_names = [] then do
      emit ("❌ No secrets found in Key Vault " ++ squote ++ keyvault_name ++ squote
        ++ " with prefix " ++ squote ++ pyStr secretPfxO ++ squote)
      exitM 1
    else do
      assignSecrets object_id subscription_id resource_group keyvault_name secret_names
      emit ("✅ Assigned access to secrets with prefix " ++ squote ++ pyStr secretPfxO ++ squote)
  else do
    emit ("🔓 Granting access to ALL secrets in vault " ++ squote ++ keyvault_name ++ squote
      ++ " for SP " ++ squote ++ sp_name ++ squote ++ "...")
    assign_rbac object_id ("Key Vault Secrets User")
      (vaultScope subscription_id resource_group keyvault_name)
    emit ("✅ SP " ++ squote ++ sp_name ++ squote ++ " now has access to ALL secrets in Key Vault "
      ++ squote ++ keyvault_name ++ squote ++ ".")
  emit (credsBanner)
  emit (credsJson client_id client_secret tenant_id subscription_id)
  emit (closeBanner)
  emit ("\nCopy these values into your GitHub repo secrets and use in your GHA workflows.")

end KV

namespace SWA

/-- `load_defaults` of `create_sp_for_swa_rg.py`. -/
def load_defaults : M (String → Option String) := do
  let env ← getEnvM
  if env.defaultsPresent then pure env.defaults
  else do
    emit ("Defaults file defaults.toml not found.")
    exitM 1

/-- `prompt(msg, default)` (identical to the Key Vault script's). -/
def prompt (msg : String) (default : String) : M String := do
  let line ← readLine (msg ++ " [" ++ default ++ "]: ")
  pure (promptValue line default)

/-- `az(cmd, capture_output, check)`: always runs with output captured (the
`capture_output` parameter is accepted but unused, as in the source).  With
`check`, a non-zero exit prints the failing command line and stderr and exits
1; otherwise the stripped stdout is returned (Python returns `None` for empty
stdout; `None` and `""` are interchangeable at every use site modelled). -/
def az (cmd : List String) (capture_output : Bool) (check : Bool) : M AzOut := do
  let _ := capture_output
  let full_cmd := "az" :: cmd
  let result ← spawn full_cmd
  if check = true ∧ result.returncode ≠ 0 then do
    emit ("Command failed: " ++ String.intercalate (" ") full_cmd)
    emit result.stderr
    exitM 1
  else
    pure result.stdout.strip

/-- `get_sp(sp_name)`: existence lookup issued with `check=False` against the
identifier `http://<sp_name>`; empty output means not found; on output, a
`json.loads` failure or missing field is an uncaught exception (exit 1). -/
def get_sp (sp_name : String) : M SpLookup := do
  let out ← az (["ad", "sp", "show", "--id", "http://" ++ sp_name]) true false
  if out.toStr = "" then pure SpLookup.notFound
  else
    match json_loads out with
    | none => crashM
    | some data =>
      match jfield data ("appId"), jfield data ("id") with
      | some client_id, some object_id => do
          let tenant_id ← az (["ad", "sp", "show", "--id", client_id, "--query",
            "appOwnerOrganizationId", "-o", "tsv"]) true true
          pure (SpLookup.found client_id object_id tenant_id.toStr)
      | _, _ => crashM

/-- `create_sp(sp_name)`: creation call then one object-id lookup; empty
creation output exits 1 with a message; parse failures are uncaught. -/
def create_sp (sp_name : String) : M (String × String × String × String) := do
  let out ← az (["ad", "sp", "create-for-rbac", "--name", sp_name, "--skip-assignment",
    "--query", "\x7bclientId: appId, clientSecret: password, tenantId: tenant\x7d",
    "-o", "json"]) true true
  if out.toStr = "" then do
    emit ("❌ No output returned by az command")
    exitM 1
  else
    match json_loads out with
    | none => crashM
    | some data =>
      match jfield data ("clientId"), jfield data ("clientSecret"), jfield data ("tenantId") with
      | some client_id, some client_secret, some tenant_id => do
          let object_id ← az (["ad", "sp", "show", "--id", client_id, "--query", "id",
            "-o", "tsv"]) true true
          pure (client_id, client_secret, tenant_id, object_id.toStr)
      | _, _, _ => crashM

/-- `reset_sp_secret(client_id)`: one credential-reset call. -/
def reset_sp_secret (client_id : String) : M String := do
  let secret ← az (["ad", "sp", "credential", "reset", "--id", client_id, "--query",
    "password", "-o", "tsv"]) true true
  pure secret.toStr

/-- `assign_rbac(object_id, role, scope)`: one role-assignment call (passes
`capture_output=False`, which this script's `az` ignores, so the call is
still checked). -/
def assign_rbac (object_id : String) (role : String) (scope : String) : M Unit := do
  let _ ← az (["role", "assignment", "create", "--assignee", object_id, "--role", role,
    "--scope", scope]) false true
  pure ()

/-- `create_swa_app(name, resource_group, location)`. -/
def create_swa_app (name : String) (resource_group : String) (location : String) : M Unit := do
  emit ("🚀 Creating Static Web App " ++ squote ++ name ++ squote ++ " in RG "
    ++ squote ++ resource_group ++ squote ++ "...")
  let _ ← az (["staticwebapp", "create", "--name", name, "--resource-group", resource_group,
    "--location", location, "--sku", "Free", "--source", "."]) true true
  pure ()

/-- `main()` of `create_sp_for_swa_rg.py`, line for line. -/
def main : M Unit := do
  let defaults ← load_defaults
  let orgPfx := (defaults ("org_prefix")).getD ("pfx")
  let tenantD := (defaults ("azure_tenant_id")).getD ("")
  let subD := (defaults ("azure_subscription_id")).getD ("")
  let _role_scope := "resourceGroup"
  let sp_base_name ← prompt ("Service Principal name prefix") (orgPfx ++ "-swa-deployer")
  let sp_name := sp_base_name ++ "-sp"
  let tenant_id0 ← prompt ("Azure Tenant ID") tenantD
  let subscription_id ← prompt ("Azure Subscription ID") subD
  let rg_name ← prompt ("Resource Group name") ("rg-core")
  let scope := "/subscriptions/" ++ subscription_id ++ "/resourceGroups/" ++ rg_name
  let lookup ← get_sp sp_name
  let resolved ←
    match lookup with
    | SpLookup.found client_id object_id real_tenant_id => do
        emit ("✅ Service Principal " ++ squote ++ sp_name ++ squote
          ++ " already exists. Reusing it.")
        let client_secret ← reset_sp_secret client_id
        pure (client_id, client_secret,
          (if tenant_id0 = "" then real_tenant_id else tenant_id0), object_id)
    | SpLookup.notFound => do
        emit ("==> Creating SP " ++ squote ++ sp_name ++ squote)
        let r ← create_sp sp_name
        emit ("✅ SP created: " ++ r.1)
        pure r
  let client_id := resolved.1
  let client_secret := resolved.2.1
  let tenant_id := resolved.2.2.1
  let object_id := resolved.2.2.2
  emit ("🔐 Assigning role " ++ squote ++ "Contributor" ++ squote ++ " to SP at scope: " ++ scope)
  assign_rbac object_id ("Contributor") scope
  let create_swa ← prompt ("Do you want to create an Azure Static Web App?") ("yes")
  let create_swaL := pyLower create_swa
  if create_swaL = "yes" ∨ create_swaL = "y" then do
    let swa_name ← prompt ("Static Web App name") (orgPfx ++ "-swa")
    let swa_location ← prompt ("SWA location") ("AustraliaEast")
    create_swa_app swa_name rg_name swa_location
    emit ("\n✅ Static Web App created: " ++ swa_name)
    emit ("SWA_NAME=" ++ swa_name)
    emit ("SWA_RESOURCE_GROUP=" ++ rg_name)
    emit ("SWA_LOCATION=" ++ swa_location)
  else pure ()
  emit (credsBanner)
  emit (credsJson client_id client_secret tenant_id subscription_id)
  emit (closeBanner)
  emit ("\n✅ Copy the above JSON into GitHub repo secrets as `AZURE_CREDS`")

end SWA

/-- State carried by a run outcome (on exit, the state at the exit point). -/
def Res.finalSt {α : Type} : Res α → St
  | .ok _ s => s
  | .exited _ s => s

/-- The process exit status a run outcome produced, if it terminated early. -/
def Res.exitCode {α : Type} : Res α → Option Nat
  | .ok _ _ => none
  | .exited c _ => some c

/-- The argv of a role-assignment call (`assign_rbac` in either script). -/
def roleAssignArgv (object_id : String) (role : String) (scope : String) : List String :=
  ["az", "role", "assignment", "create", "--assignee", object_id, "--role", role,
   "--scope", scope]

/-- Recognizes a role-assignment call in a trace. -/
def isRoleAssignCall (c : List String) : Bool :=
  c.take 4 = ["az", "role", "assignment", "create"]

/-- Recognizes a service-principal creation call (`create-for-rbac`). -/
def isCreateCall (c : List String) : Bool :=
  c.take 4 = ["az", "ad", "sp", "create-for-rbac"]

/-- Recognizes a credential-reset call. -/
def isResetCall (c : List String) : Bool :=
  c.take 5 = ["az", "ad", "sp", "credential", "reset"]

/-- Recognizes the object-id lookup call `ad sp show --id <id> --query id -o tsv`. -/
def isObjIdQueryCall (c : List String) : Bool :=
  c.take 5 = ["az", "ad", "sp", "show", "--id"] &&
    c.drop 6 = ["--query", "id", "-o", "tsv"]

namespace KV

/-- The repository name `main` works with: first prompt over the
`org_prefix`-derived default. -/
def repoName (env : Env) : String :=
  promptValue (env.inputs 0) (((env.defaults ("org_prefix")).getD ("pfx")) ++ "-repo")

/-- The service-principal name `main` derives: `f"{repo_name}-sp"`. -/
def spName (env : Env) : String := repoName env ++ "-sp"

/-- The tenant id resulting from the second prompt. -/
def tenantIn (env : Env) : String :=
  promptValue (env.inputs 1) ((env.defaults ("azure_tenant_id")).getD (""))

/-- The subscription id resulting from the third prompt. -/
def subIn (env : Env) : String :=
  promptValue (env.inputs 2) ((env.defaults ("azure_subscription_id")).getD (""))

/-- The resource group resulting from the fourth prompt. -/
def rgIn (env : Env) : String :=
  promptValue (env.inputs 3) ((env.defaults ("azure_resource_group")).getD (""))

/-- The vault name resulting from the fifth prompt. -/
def kvIn (env : Env) : String :=
  promptValue (env.inputs 4) ((env.defaults ("azure_keyvault_name")).getD (""))

/-- The scope choice resulting from the sixth prompt (default `"1"`). -/
def scopeChoiceIn (env : Env) : String := promptValue (env.inputs 5) ("1")

/-- The secret prefix resulting from the seventh prompt (asked only when the
scope choice is `"2"`). -/
def pfxIn (env : Env) : String := promptValue (env.inputs 6) (repoName env ++ "-")

end KV

namespace SWA

/-- The service-principal base name: first prompt over the
`org_prefix`-derived default. -/
def spBase (env : Env) : String :=
  promptValue (env.inputs 0) (((env.defaults ("org_prefix")).getD ("pfx")) ++ "-swa-deployer")

/-- The service-principal name `main` derives: `f"{sp_base_name}-sp"`. -/
def spName (env : Env) : String := spBase env ++ "-sp"

/-- The tenant id resulting from the second prompt. -/
def tenantIn (env : Env) : String :=
  promptValue (env.inputs 1) ((env.defaults ("azure_tenant_id")).getD (""))

/-- The subscription id resulting from the third prompt. -/
def subIn (env : Env) : String :=
  promptValue (env.inputs 2) ((env.defaults ("azure_subscription_id")).getD (""))

/-- The resource group resulting from the fourth prompt (default `rg-core`). -/
def rgIn (env : Env) : String := promptValue (env.inputs 3) ("rg-core")

end SWA

/-- Prefixing a string with `http://` always changes it (the lengths differ). -/
theorem http_ne (s : String) : "http://" ++ s ≠ s := by
  intro h
  have hlen := congrArg String.length h
  rw [String.length_append] at hlen
  have h7 : ("http://").length = 7 := rfl
  omega

/-- A role-assignment argv is recognized by `isRoleAssignCall`. -/
@[simp] theorem isRoleAssign_roleAssignArgv (a b c : String) :
    isRoleAssignCall (roleAssignArgv a b c) = true := rfl

/-- Running the per-secret assignment loop of the Key Vault script: when every
consumed command result reports success, it issues exactly one role-assignment
call per name, in order, with the scope path `.../secrets/<name>`. -/
theorem assignSecrets_run (object_id subscription_id resource_group keyvault_name : String)
    (names : List String) (env : Env) (s : St)
    (h : ∀ k, k < names.length → (env.resp (s.azIdx + k)).returncode = 0) :
    KV.assignSecrets object_id subscription_id resource_group keyvault_name names env s =
      Res.ok () { s with
        azIdx := s.azIdx + names.length,
        calls := s.calls ++ names.map (fun n =>
          roleAssignArgv object_id ("Key Vault Secrets User")
            (KV.vaultScope subscription_id resource_group keyvault_name ++ "/secrets/" ++ n)),
        printed := s.printed ++ names.map (fun n => "🔐 Assigning access to secret: " ++ n) } := by
  induction names generalizing s with
  | nil => simp [KV.assignSecrets]
  | cons n rest ih =>
      have h0 := h 0 (by simp)
      simp only [Nat.add_zero] at h0
      rw [KV.assignSecrets]
      simp [KV.assign_rbac, KV.az, h0]
      rw [ih]
      · simp [roleAssignArgv, St.mk.injEq]
        omega
      · intro k hk
        have hh := h (k + 1) (by simp; omega)
        have hidx : s.azIdx + (k + 1) = s.azIdx + 1 + k := by omega
        rw [hidx] at hh
        exact hh

/-- The secret-name list `get_secret_names` computes from the stripped
listing output: its non-empty lines. -/
def secretNamesOf (listing : String) : List String :=
  (splitLines (pyStrip listing)).filter (fun n => n ≠ "")

/-- Filtering a pure block of role-assignment calls for role-assignment calls
keeps all of them. -/
@[simp] theorem filter_isRoleAssign_map (oid role : String) (f : String → String)
    (names : List String) :
    (names.map (fun n => roleAssignArgv oid role (f n))).filter
        (fun c => isRoleAssignCall c) =
      names.map (fun n => roleAssignArgv oid role (f n)) := by
  induction names with
  | nil => rfl
  | cons a l ih => simp [List.filter_cons, ih]

/-- Witness environment: defaults file absent. -/
def envC6w : Env := ⟨false, fun _ => none, fun _ => "", fun _ => ⟨0, AzOut.str (""), ""⟩⟩

/-- Witness environment: Key Vault script, lookup not found, whole-vault
scope, all inputs empty, external calls succeed. -/
def envC7w : Env :=
  ⟨true, fun _ => none, fun _ => "",
   fun k => match k with
     | 0 => ⟨0, AzOut.str (""), ""⟩
     | 1 => ⟨0, AzOut.json [("clientId", "CID"), ("clientSecret", "SEC"), ("tenantId", "TID")], ""⟩
     | 2 => ⟨0, AzOut.str ("OID"), ""⟩
     | _ => ⟨0, AzOut.str (""), ""⟩⟩

/-- Witness environment: like `envC7w` but the operator answers `banana` to
the scope-choice prompt. -/
def envC10w : Env :=
  ⟨true, fun _ => none, fun k => if k = 5 then "banana" else "",
   fun k => match k with
     | 0 => ⟨0, AzOut.str (""), ""⟩
     | 1 => ⟨0, AzOut.json [("clientId", "CID"), ("clientSecret", "SEC"), ("tenantId", "TID")], ""⟩
     | 2 => ⟨0, AzOut.str ("OID"), ""⟩
     | _ => ⟨0, AzOut.str (""), ""⟩⟩

/-- C6: in either script, when the defaults configuration file is absent the
process exits with status 1 before any external CLI call is attempted (the
exit state records no spawned command, only the error message). -/
theorem C6_missing_defaults_exits_before_any_call (env : Env)
    (hd : env.defaultsPresent = false) :
    KV.main env St.init =
      Res.exited 1 ⟨0, 0, [], [], ["Defaults file defaults.toml not found!"]⟩ ∧
    SWA.main env St.init =
      Res.exited 1 ⟨0, 0, [], [], ["Defaults file defaults.toml not found."]⟩ := by
  constructor
  · simp [KV.main, KV.load_defaults, St.init, hd]
  · simp [SWA.main, SWA.load_defaults, St.init, hd]

/-- C6 witness: the concrete absent-defaults environment. -/
theorem C6_missing_defaults_exits_before_any_call_witness :
    KV.main envC6w St.init =
      Res.exited 1 ⟨0, 0, [], [], ["Defaults file defaults.toml not found!"]⟩ ∧
    SWA.main envC6w St.init =
      Res.exited 1 ⟨0, 0, [], [], ["Defaults file defaults.toml not found."]⟩ :=
  C6_missing_defaults_exits_before_any_call envC6w rfl

/-- C7: in the Key Vault script with whole-vault scoping selected (scope
choice `"1"`), a completing run issues exactly one role-assignment call, at
the vault-level scope path `.../vaults/<vault name>`.  No vault listing is
consulted: the hypotheses leave every listing response unconstrained, so the
conclusion holds regardless of how many secrets the vault contains. -/
theorem C7_whole_vault_single_assignment (env : Env) (e0 e1 e2 : String)
    (fs : List (String × String)) (cid sec tid oid : String)
    (hd : env.defaultsPresent = true)
    (hsc : promptValue (env.inputs 5) ("1") = "1")
    (h0 : env.resp 0 = ⟨0, AzOut.str (""), e0⟩)
    (h1 : env.resp 1 = ⟨0, AzOut.json fs, e1⟩)
    (hc : jfield fs ("clientId") = some cid)
    (hs : jfield fs ("clientSecret") = some sec)
    (ht : jfield fs ("tenantId") = some tid)
    (h2 : env.resp 2 = ⟨0, AzOut.str oid, e2⟩)
    (h3 : (env.resp 3).returncode = 0) :
    ∃ s : St, KV.main env St.init = Res.ok () s ∧
      s.calls.filter (fun c => isRoleAssignCall c) =
        [roleAssignArgv (pyStrip oid) ("Key Vault Secrets User")
          (KV.vaultScope (KV.subIn env) (KV.rgIn env) (KV.kvIn env))] := by
  simp [KV.main, KV.load_defaults, KV.prompt, KV.get_sp, KV.create_sp, KV.az,
    KV.reset_sp_secret, KV.assign_rbac, KV.get_secret_names, KV.assignSecrets,
    KV.vaultScope, KV.subIn, KV.rgIn, KV.kvIn, KV.spName, KV.repoName, St.init,
    isRoleAssignCall, roleAssignArgv, hd, h0, h1, h2, h3, hc, hs, ht, hsc]

/-- C7 witness: concrete not-found whole-vault run. -/
theorem C7_whole_vault_single_assignment_witness :
    ∃ s : St, KV.main envC7w St.init = Res.ok () s ∧
      s.calls.filter (fun c => isRoleAssignCall c) =
        [roleAssignArgv (pyStrip ("OID")) ("Key Vault Secrets User")
          (KV.vaultScope (KV.subIn envC7w) (KV.rgIn envC7w) (KV.kvIn envC7w))] :=
  C7_whole_vault_single_assignment envC7w "" "" ""
    [("clientId", "CID"), ("clientSecret", "SEC"), ("tenantId", "TID")]
    "CID" "SEC" "TID" "OID" rfl (by decide) rfl rfl rfl rfl rfl rfl rfl

/-- C10: in the Key Vault script, any resolved scope-choice value other than
exactly `"2"` (the prompt strips the raw input and substitutes the default
`"1"` for blank input, so this covers `"3"`, arbitrary text, and empty input)
selects the whole-vault path: the run shows exactly the six main prompts —
the secret-prefix prompt is never shown — and issues a single vault-level
role assignment. -/
theorem C10_non_two_choice_selects_vault (env : Env) (e0 e1 e2 : String)
    (fs : List (String × String)) (cid sec tid oid : String)
    (hd : env.defaultsPresent = true)
    (hsc : promptValue (env.inputs 5) ("1") ≠ "2")
    (h0 : env.resp 0 = ⟨0, AzOut.str (""), e0⟩)
    (h1 : env.resp 1 = ⟨0, AzOut.json fs, e1⟩)
    (hc : jfield fs ("clientId") = some cid)
    (hs : jfield fs ("clientSecret") = some sec)
    (ht : jfield fs ("tenantId") = some tid)
    (h2 : env.resp 2 = ⟨0, AzOut.str oid, e2⟩)
    (h3 : (env.resp 3).returncode = 0) :
    ∃ s : St, KV.main env St.init = Res.ok () s ∧
      s.prompts =
        ["Enter the Git repository name [" ++ ((env.defaults ("org_prefix")).getD ("pfx") ++ "-repo") ++ "]: ",
         "Azure Tenant ID [" ++ (env.defaults ("azure_tenant_id")).getD ("") ++ "]: ",
         "Azure Subscription ID [" ++ (env.defaults ("azure_subscription_id")).getD ("") ++ "]: ",
         "Azure Resource Group [" ++ (env.defaults ("azure_resource_group")).getD ("") ++ "]: ",
         "Azure Key Vault name [" ++ (env.defaults ("azure_keyvault_name")).getD ("") ++ "]: ",
         "Enter 1 or 2 [1]: "] ∧
      s.calls.filter (fun c => isRoleAssignCall c) =
        [roleAssignArgv (pyStrip oid) ("Key Vault Secrets User")
          (KV.vaultScope (KV.subIn env) (KV.rgIn env) (KV.kvIn env))] := by
  simp [KV.main, KV.load_defaults, KV.prompt, KV.get_sp, KV.create_sp, KV.az,
    KV.reset_sp_secret, KV.assign_rbac, KV.get_secret_names, KV.assignSecrets,
    KV.vaultScope, KV.subIn, KV.rgIn, KV.kvIn, KV.spName, KV.repoName, St.init,
    isRoleAssignCall, roleAssignArgv, hd, h0, h1, h2, h3, hc, hs, ht, hsc]

/-- C10 witness: the operator answers `banana` to the scope-choice prompt. -/
theorem C10_non_two_choice_selects_vault_witness :
    ∃ s : St, KV.main envC10w St.init = Res.ok () s ∧
      s.prompts =
        ["Enter the Git repository name [" ++ ((envC10w.defaults ("org_prefix")).getD ("pfx") ++ "-repo") ++ "]: ",
         "Azure Tenant ID [" ++ (envC10w.defaults ("azure_tenant_id")).getD ("") ++ "]: ",
         "Azure Subscription ID [" ++ (envC10w.defaults ("azure_subscription_id")).getD ("") ++ "]: ",
         "Azure Resource Group [" ++ (envC10w.defaults ("azure_resource_group")).getD ("") ++ "]: ",
         "Azure Key Vault name [" ++ (envC10w.defaults ("azure_keyvault_name")).getD ("") ++ "]: ",
         "Enter 1 or 2 [1]: "] ∧
      s.calls.filter (fun c => isRoleAssignCall c) =
        [roleAssignArgv (pyStrip ("OID")) ("Key Vault Secrets User")
          (KV.vaultScope (KV.subIn envC10w) (KV.rgIn envC10w) (KV.kvIn envC10w))] :=
  C10_non_two_choice_selects_vault envC10w "" "" ""
    [("clientId", "CID"), ("clientSecret", "SEC"), ("tenantId", "TID")]
    "CID" "SEC" "TID" "OID" rfl (by decide) rfl rfl rfl rfl rfl rfl rfl

/-- C8: `prompt(message, default)` in either script returns the operator
input with surrounding whitespace stripped when that stripped input is
non-empty, and the default otherwise; the run consumes exactly one input
line and shows the message with the default. -/
theorem C8_prompt_contract (msg default line : String) (env : Env) (s : St) :
    (pyStrip line ≠ "" → promptValue line default = pyStrip line) ∧
    (pyStrip line = "" → promptValue line default = default) ∧
    KV.prompt msg default env s =
      Res.ok (promptValue (env.inputs s.inIdx) default)
        { s with inIdx := s.inIdx + 1,
                 prompts := s.prompts ++ [msg ++ " [" ++ default ++ "]: "] } ∧
    SWA.prompt msg default env s =
      Res.ok (promptValue (env.inputs s.inIdx) default)
        { s with inIdx := s.inIdx + 1,
                 prompts := s.prompts ++ [msg ++ " [" ++ default ++ "]: "] } := by
  refine ⟨fun h => by simp [promptValue, h], fun h => by simp [promptValue, h], ?_, ?_⟩
  · simp [KV.prompt]
  · simp [SWA.prompt]

/-- C8 witness: concrete instance with whitespace-padded input. -/
theorem C8_prompt_contract_witness :
    (pyStrip (" x ") ≠ "" → promptValue (" x ") ("d") = pyStrip (" x ")) ∧
    (pyStrip (" x ") = "" → promptValue (" x ") ("d") = "d") ∧
    KV.prompt ("Azure Tenant ID") ("d") envC7w St.init =
      Res.ok (promptValue (envC7w.inputs 0) ("d"))
        { St.init with inIdx := 1, prompts := ["Azure Tenant ID [d]: "] } ∧
    SWA.prompt ("Azure Tenant ID") ("d") envC7w St.init =
      Res.ok (promptValue (envC7w.inputs 0) ("d"))
        { St.init with inIdx := 1, prompts := ["Azure Tenant ID [d]: "] } :=
  C8_prompt_contract ("Azure Tenant ID") ("d") (" x ") envC7w St.init

/-- Witness environment for the not-found creation path (identical to
`envC7w`; named separately for the C1 witness). -/
def envC1w : Env :=
  ⟨true, fun _ => none, fun _ => "",
   fun k => match k with
     | 0 => ⟨0, AzOut.str (""), ""⟩
     | 1 => ⟨0, AzOut.json [("clientId", "CID"), ("clientSecret", "SEC"), ("tenantId", "TID")], ""⟩
     | 2 => ⟨0, AzOut.str ("OID"), ""⟩
     | _ => ⟨0, AzOut.str (""), ""⟩⟩

/-- C1: in the Key Vault script, when the lookup command completes with empty
output — the case `get_sp` reports as not found — the lookup returns the
not-found signal without terminating the process, and the run then performs
one creation call immediately followed by exactly one object-id lookup call;
the client id taken from the creation response is the one in the final
printed credential JSON. -/
theorem C1_notfound_signal_then_single_create (env : Env) (e0 e1 e2 : String)
    (fs : List (String × String)) (cid sec tid oid : String)
    (hd : env.defaultsPresent = true)
    (hsc : promptValue (env.inputs 5) ("1") ≠ "2")
    (h0 : env.resp 0 = ⟨0, AzOut.str (""), e0⟩)
    (h1 : env.resp 1 = ⟨0, AzOut.json fs, e1⟩)
    (hc : jfield fs ("clientId") = some cid)
    (hs : jfield fs ("clientSecret") = some sec)
    (ht : jfield fs ("tenantId") = some tid)
    (h2 : env.resp 2 = ⟨0, AzOut.str oid, e2⟩)
    (h3 : (env.resp 3).returncode = 0) :
    KV.get_sp (KV.spName env) env St.init =
      Res.ok SpLookup.notFound
        { St.init with
          azIdx := 1,
          calls := [["az", "ad", "sp", "show", "--id", KV.spName env]] } ∧
    ∃ s : St, KV.main env St.init = Res.ok () s ∧
      s.calls =
        [["az", "ad", "sp", "show", "--id", KV.spName env],
         ["az", "ad", "sp", "create-for-rbac", "--name", KV.spName env, "--skip-assignment",
          "--query", "\x7bclientId: appId, clientSecret: password, tenantId: tenant\x7d",
          "-o", "json"],
         ["az", "ad", "sp", "show", "--id", cid, "--query", "id", "-o", "tsv"],
         roleAssignArgv (pyStrip oid) ("Key Vault Secrets User")
           (KV.vaultScope (KV.subIn env) (KV.rgIn env) (KV.kvIn env))] ∧
      s.calls.filter (fun c => isCreateCall c) =
        [["az", "ad", "sp", "create-for-rbac", "--name", KV.spName env, "--skip-assignment",
          "--query", "\x7bclientId: appId, clientSecret: password, tenantId: tenant\x7d",
          "-o", "json"]] ∧
      s.calls.filter (fun c => isObjIdQueryCall c) =
        [["az", "ad", "sp", "show", "--id", cid, "--query", "id", "-o", "tsv"]] ∧
      credsJson cid sec tid (KV.subIn env) ∈ s.printed := by
  constructor
  · simp [KV.get_sp, KV.az, KV.spName, KV.repoName, St.init, h0]
  · simp [KV.main, KV.load_defaults, KV.prompt, KV.get_sp, KV.create_sp, KV.az,
      KV.reset_sp_secret, KV.assign_rbac, KV.get_secret_names, KV.assignSecrets,
      KV.vaultScope, KV.subIn, KV.rgIn, KV.kvIn, KV.spName, KV.repoName, St.init,
      isCreateCall, isObjIdQueryCall, isRoleAssignCall, roleAssignArgv,
      hd, h0, h1, h2, h3, hc, hs, ht, hsc]

/-- C1 witness: concrete not-found creation run. -/
theorem C1_notfound_signal_then_single_create_witness :
    KV.get_sp (KV.spName envC1w) envC1w St.init =
      Res.ok SpLookup.notFound
        { St.init with
          azIdx := 1,
          calls := [["az", "ad", "sp", "show", "--id", KV.spName envC1w]] } ∧
    ∃ s : St, KV.main envC1w St.init = Res.ok () s ∧
      s.calls =
        [["az", "ad", "sp", "show", "--id", KV.spName envC1w],
         ["az", "ad", "sp", "create-for-rbac", "--name", KV.spName envC1w, "--skip-assignment",
          "--query", "\x7bclientId: appId, clientSecret: password, tenantId: tenant\x7d",
          "-o", "json"],
         ["az", "ad", "sp", "show", "--id", "CID", "--query", "id", "-o", "tsv"],
         roleAssignArgv (pyStrip ("OID")) ("Key Vault Secrets User")
           (KV.vaultScope (KV.subIn envC1w) (KV.rgIn envC1w) (KV.kvIn envC1w))] ∧
      s.calls.filter (fun c => isCreateCall c) =
        [["az", "ad", "sp", "create-for-rbac", "--name", KV.spName envC1w, "--skip-assignment",
          "--query", "\x7bclientId: appId, clientSecret: password, tenantId: tenant\x7d",
          "-o", "json"]] ∧
      s.calls.filter (fun c => isObjIdQueryCall c) =
        [["az", "ad", "sp", "show", "--id", "CID", "--query", "id", "-o", "tsv"]] ∧
      credsJson ("CID") ("SEC") ("TID") (KV.subIn envC1w) ∈ s.printed :=
  C1_notfound_signal_then_single_create envC1w "" "" ""
    [("clientId", "CID"), ("clientSecret", "SEC"), ("tenantId", "TID")]
    "CID" "SEC" "TID" "OID" rfl (by decide) rfl rfl rfl rfl rfl rfl rfl

/-- Witness environment: Key Vault script, lookup finds the principal. -/
def envC5k : Env :=
  ⟨true, fun _ => none, fun _ => "",
   fun k => match k with
     | 0 => ⟨0, AzOut.json [("appId", "CID"), ("id", "OID")], ""⟩
     | 1 => ⟨0, AzOut.str ("TEN"), ""⟩
     | 2 => ⟨0, AzOut.str ("SEC"), ""⟩
     | _ => ⟨0, AzOut.str (""), ""⟩⟩

/-- Witness environment: SWA script, lookup finds the principal; the operator
declines the Static Web App creation. -/
def envC5s : Env :=
  ⟨true, fun _ => none, fun k => if k = 4 then "no" else "",
   fun k => match k with
     | 0 => ⟨0, AzOut.json [("appId", "CID"), ("id", "OID")], ""⟩
     | 1 => ⟨0, AzOut.str ("TEN"), ""⟩
     | 2 => ⟨0, AzOut.str ("SEC"), ""⟩
     | _ => ⟨0, AzOut.str (""), ""⟩⟩

/-- C5: in either script, when the lookup reports found, the client id from
the lookup response is the one used for the rest of the run (it names the
single credential-reset call and appears in the final printed JSON), no
creation call occurs, and exactly one credential-reset call is issued — the
existing principal's secret is rotated on every such run. -/
theorem C5_found_reuses_id_and_resets_once
    (envK envS : Env) (e0 e1 e2 f0 f1 f2 : String) (r0 : Nat)
    (fsK fsS : List (String × String)) (cidK oidK rtK secK cidS oidS rtS secS : String)
    (hdK : envK.defaultsPresent = true)
    (hscK : promptValue (envK.inputs 5) ("1") ≠ "2")
    (hK0 : envK.resp 0 = ⟨0, AzOut.json fsK, e0⟩)
    (hKA : jfield fsK ("appId") = some cidK)
    (hKI : jfield fsK ("id") = some oidK)
    (hK1 : envK.resp 1 = ⟨0, AzOut.str rtK, e1⟩)
    (hK2 : envK.resp 2 = ⟨0, AzOut.str secK, e2⟩)
    (hKsec : pyStrip secK ≠ "")
    (hK3 : (envK.resp 3).returncode = 0)
    (hdS : envS.defaultsPresent = true)
    (hS0 : envS.resp 0 = ⟨r0, AzOut.json fsS, f0⟩)
    (hSA : jfield fsS ("appId") = some cidS)
    (hSI : jfield fsS ("id") = some oidS)
    (hS1 : envS.resp 1 = ⟨0, AzOut.str rtS, f1⟩)
    (hS2 : envS.resp 2 = ⟨0, AzOut.str secS, f2⟩)
    (hS3 : (envS.resp 3).returncode = 0)
    (hswa : pyLower (promptValue (envS.inputs 4) ("yes")) ≠ "yes")
    (hswa2 : pyLower (promptValue (envS.inputs 4) ("yes")) ≠ "y") :
    (∃ s : St, KV.main envK St.init = Res.ok () s ∧
      s.calls.filter (fun c => isResetCall c) =
        [["az", "ad", "sp", "credential", "reset", "--id", cidK, "--query", "password",
          "-o", "tsv"]] ∧
      s.calls.filter (fun c => isCreateCall c) = [] ∧
      credsJson cidK (pyStrip secK)
        (if KV.tenantIn envK = "" then pyStrip rtK else KV.tenantIn envK)
        (KV.subIn envK) ∈ s.printed) ∧
    (∃ s : St, SWA.main envS St.init = Res.ok () s ∧
      s.calls.filter (fun c => isResetCall c) =
        [["az", "ad", "sp", "credential", "reset", "--id", cidS, "--query", "password",
          "-o", "tsv"]] ∧
      s.calls.filter (fun c => isCreateCall c) = [] ∧
      credsJson cidS (pyStrip secS)
        (if SWA.tenantIn envS = "" then pyStrip rtS else SWA.tenantIn envS)
        (SWA.subIn envS) ∈ s.printed) := by
  constructor
  · simp [KV.main, KV.load_defaults, KV.prompt, KV.get_sp, KV.create_sp, KV.az,
      KV.reset_sp_secret, KV.assign_rbac, KV.get_secret_names, KV.assignSecrets,
      KV.vaultScope, KV.subIn, KV.rgIn, KV.kvIn, KV.tenantIn, KV.spName, KV.repoName,
      St.init, isResetCall, isCreateCall, isRoleAssignCall, roleAssignArgv,
      hdK, hK0, hK1, hK2, hK3, hKA, hKI, hKsec, hscK]
  · simp [SWA.main, SWA.load_defaults, SWA.prompt, SWA.get_sp, SWA.create_sp, SWA.az,
      SWA.reset_sp_secret, SWA.assign_rbac, SWA.create_swa_app, SWA.subIn, SWA.rgIn,
      SWA.tenantIn, SWA.spName, SWA.spBase, St.init,
      isResetCall, isCreateCall, isRoleAssignCall, roleAssignArgv,
      hdS, hS0, hS1, hS2, hS3, hSA, hSI, hswa, hswa2]

/-- C5 witness: concrete found-path runs of both scripts. -/
theorem C5_found_reuses_id_and_resets_once_witness :
    (∃ s : St, KV.main envC5k St.init = Res.ok () s ∧
      s.calls.filter (fun c => isResetCall c) =
        [["az", "ad", "sp", "credential", "reset", "--id", "CID", "--query", "password",
          "-o", "tsv"]] ∧
      s.calls.filter (fun c => isCreateCall c) = [] ∧
      credsJson ("CID") (pyStrip ("SEC"))
        (if KV.tenantIn envC5k = "" then pyStrip ("TEN") else KV.tenantIn envC5k)
        (KV.subIn envC5k) ∈ s.printed) ∧
    (∃ s : St, SWA.main envC5s St.init = Res.ok () s ∧
      s.calls.filter (fun c => isResetCall c) =
        [["az", "ad", "sp", "credential", "reset", "--id", "CID", "--query", "password",
          "-o", "tsv"]] ∧
      s.calls.filter (fun c => isCreateCall c) = [] ∧
      credsJson ("CID") (pyStrip ("SEC"))
        (if SWA.tenantIn envC5s = "" then pyStrip ("TEN") else SWA.tenantIn envC5s)
        (SWA.subIn envC5s) ∈ s.printed) :=
  C5_found_reuses_id_and_resets_once envC5k envC5s "" "" "" "" "" "" 0
    [("appId", "CID"), ("id", "OID")] [("appId", "CID"), ("id", "OID")]
    "CID" "OID" "TEN" "SEC" "CID" "OID" "TEN" "SEC"
    rfl (by decide) rfl rfl rfl rfl rfl (by decide) rfl
    rfl rfl rfl rfl rfl rfl rfl (by decide) (by decide)

/-- Witness environment: SWA script, lookup command fails (non-zero exit,
empty output — the realistic not-found response), creation succeeds, operator
declines the Static Web App. -/
def envC9w : Env :=
  ⟨true, fun _ => none, fun k => if k = 4 then "no" else "",
   fun k => match k with
     | 0 => ⟨1, AzOut.str (""), "ERROR: resource not found"⟩
     | 1 => ⟨0, AzOut.json [("clientId", "CID"), ("clientSecret", "SEC"), ("tenantId", "TID")], ""⟩
     | 2 => ⟨0, AzOut.str ("OID"), ""⟩
     | _ => ⟨0, AzOut.str (""), ""⟩⟩

/-- C9: in the Static Web App script, the existence lookup queries the
directory for `http://<sp_name>` (an identifier that always differs from the
bare name), while the creation call uses the bare `<sp_name>` and the
follow-up lookup uses the returned client id: the full call trace exhibits
the three identifiers.  The lookup runs unchecked, so this holds whatever
exit status the lookup command reports. -/
theorem C9_lookup_uses_http_prefixed_identifier (env : Env) (e0 e1 e2 : String)
    (r0 : Nat) (fs : List (String × String)) (cid sec tid oid : String)
    (hd : env.defaultsPresent = true)
    (h0 : env.resp 0 = ⟨r0, AzOut.str (""), e0⟩)
    (h1 : env.resp 1 = ⟨0, AzOut.json fs, e1⟩)
    (hc : jfield fs ("clientId") = some cid)
    (hs : jfield fs ("clientSecret") = some sec)
    (ht : jfield fs ("tenantId") = some tid)
    (h2 : env.resp 2 = ⟨0, AzOut.str oid, e2⟩)
    (h3 : (env.resp 3).returncode = 0)
    (hswa : pyLower (promptValue (env.inputs 4) ("yes")) ≠ "yes")
    (hswa2 : pyLower (promptValue (env.inputs 4) ("yes")) ≠ "y") :
    ∃ s : St, SWA.main env St.init = Res.ok () s ∧
      s.calls =
        [["az", "ad", "sp", "show", "--id", "http://" ++ SWA.spName env],
         ["az", "ad", "sp", "create-for-rbac", "--name", SWA.spName env, "--skip-assignment",
          "--query", "\x7bclientId: appId, clientSecret: password, tenantId: tenant\x7d",
          "-o", "json"],
         ["az", "ad", "sp", "show", "--id", cid, "--query", "id", "-o", "tsv"],
         roleAssignArgv (pyStrip oid) ("Contributor")
           ("/subscriptions/" ++ SWA.subIn env ++ "/resourceGroups/" ++ SWA.rgIn env)] ∧
      "http://" ++ SWA.spName env ≠ SWA.spName env := by
  have hne := http_ne
    (promptValue (env.inputs 0) (((env.defaults ("org_prefix")).getD ("pfx")) ++ "-swa-deployer")
      ++ "-sp")
  simp [SWA.main, SWA.load_defaults, SWA.prompt, SWA.get_sp, SWA.create_sp, SWA.az,
    SWA.reset_sp_secret, SWA.assign_rbac, SWA.create_swa_app, SWA.subIn, SWA.rgIn,
    SWA.tenantIn, SWA.spName, SWA.spBase, St.init, roleAssignArgv,
    hd, h0, h1, h2, h3, hc, hs, ht, hswa, hswa2, hne]

/-- C9 witness: concrete run in which the unchecked lookup fails with a
non-zero status (the realistic not-found outcome) and a principal is
created. -/
theorem C9_lookup_uses_http_prefixed_identifier_witness :
    ∃ s : St, SWA.main envC9w St.init = Res.ok () s ∧
      s.calls =
        [["az", "ad", "sp", "show", "--id", "http://" ++ SWA.spName envC9w],
         ["az", "ad", "sp", "create-for-rbac", "--name", SWA.spName envC9w, "--skip-assignment",
          "--query", "\x7bclientId: appId, clientSecret: password, tenantId: tenant\x7d",
          "-o", "json"],
         ["az", "ad", "sp", "show", "--id", "CID", "--query", "id", "-o", "tsv"],
         roleAssignArgv (pyStrip ("OID")) ("Contributor")
           ("/subscriptions/" ++ SWA.subIn envC9w ++ "/resourceGroups/" ++ SWA.rgIn envC9w)] ∧
      "http://" ++ SWA.spName envC9w ≠ SWA.spName envC9w :=
  C9_lookup_uses_http_prefixed_identifier envC9w "ERROR: resource not found" "" "" 1
    [("clientId", "CID"), ("clientSecret", "SEC"), ("tenantId", "TID")]
    "CID" "SEC" "TID" "OID" rfl rfl rfl rfl rfl rfl rfl rfl (by decide) (by decide)

/-- Environment whose every external command fails with status 1. -/
def envC3w : Env := ⟨true, fun _ => none, fun _ => "", fun _ => ⟨1, AzOut.str (""), "boom"⟩⟩

/-- C3 counterexample: an invocation of the Key Vault script's invoker with
`capture_output=False` whose command exits non-zero terminates the process
with nothing printed — in particular without printing the failing command
line — refuting the claim that every failing invocation prints the command
line and the error stream. -/
theorem C3_counterexample :
    (envC3w.resp 0).returncode ≠ 0 ∧
    KV.az (["x"]) false envC3w St.init = Res.exited 1 ⟨0, 1, [["az", "x"]], [], []⟩ ∧
    ¬ ("Command failed: az x" ∈ (KV.az (["x"]) false envC3w St.init).finalSt.printed) ∧
    ¬ ("boom" ∈ (KV.az (["x"]) false envC3w St.init).finalSt.printed) := by
  refine ⟨by decide, ?_, ?_, ?_⟩
  · simp [KV.az, envC3w, St.init]
  · simp [KV.az, envC3w, St.init, Res.finalSt]
  · simp [KV.az, envC3w, St.init, Res.finalSt]

/-- C3 amended: wherever checking is in effect — the Key Vault invoker with
output capture, and the SWA invoker with `check` — a non-zero exit prints the
failing command line and the captured error stream and terminates the
process with status 1.  The Key Vault invoker without capture terminates
with status 1 printing nothing, and the SWA invoker with `check=False` does
not terminate at all but returns the stripped output. -/
theorem C3_failfast_behaviour (cmd : List String) (env : Env) (s : St) (co : Bool)
    (hrc : (env.resp s.azIdx).returncode ≠ 0) :
    KV.az cmd true env s =
      Res.exited 1
        { s with
          azIdx := s.azIdx + 1,
          calls := s.calls ++ [("az" :: cmd)],
          printed := s.printed ++
            ["Command failed: " ++ String.intercalate (" ") ("az" :: cmd),
             (env.resp s.azIdx).stderr] } ∧
    KV.az cmd false env s =
      Res.exited 1
        { s with
          azIdx := s.azIdx + 1,
          calls := s.calls ++ [("az" :: cmd)] } ∧
    SWA.az cmd co true env s =
      Res.exited 1
        { s with
          azIdx := s.azIdx + 1,
          calls := s.calls ++ [("az" :: cmd)],
          printed := s.printed ++
            ["Command failed: " ++ String.intercalate (" ") ("az" :: cmd),
             (env.resp s.azIdx).stderr] } ∧
    SWA.az cmd co false env s =
      Res.ok ((env.resp s.azIdx).stdout.strip)
        { s with
          azIdx := s.azIdx + 1,
          calls := s.calls ++ [("az" :: cmd)] } := by
  refine ⟨?_, ?_, ?_, ?_⟩ <;> simp [KV.az, SWA.az, hrc]

/-- C3 amended witness: the four behaviours at a concrete failing command. -/
theorem C3_failfast_behaviour_witness :
    KV.az (["x"]) true envC3w St.init =
      Res.exited 1
        { St.init with
          azIdx := 1,
          calls := [["az", "x"]],
          printed := ["Command failed: " ++ String.intercalate (" ") (["az", "x"]),
            (envC3w.resp 0).stderr] } ∧
    KV.az (["x"]) false envC3w St.init =
      Res.exited 1
        { St.init with
          azIdx := 1,
          calls := [["az", "x"]] } ∧
    SWA.az (["x"]) true true envC3w St.init =
      Res.exited 1
        { St.init with
          azIdx := 1,
          calls := [["az", "x"]],
          printed := ["Command failed: " ++ String.intercalate (" ") (["az", "x"]),
            (envC3w.resp 0).stderr] } ∧
    SWA.az (["x"]) true false envC3w St.init =
      Res.ok ((envC3w.resp 0).stdout.strip)
        { St.init with
          azIdx := 1,
          calls := [["az", "x"]] } :=
  C3_failfast_behaviour (["x"]) envC3w St.init true (by decide)

/-- Counterexample environment: the defaults file supplies a non-empty tenant
id, the operator leaves every prompt empty (input 4 declines the Static Web
App), and the lookup finds the principal with a different tenant id. -/
def envC4w : Env :=
  ⟨true, fun k => if k = "azure_tenant_id" then some "tenant-default" else none,
   fun k => if k = 4 then "no" else "",
   fun k => match k with
     | 0 => ⟨0, AzOut.json [("appId", "CID"), ("id", "OID")], ""⟩
     | 1 => ⟨0, AzOut.str ("tenant-from-lookup"), ""⟩
     | 2 => ⟨0, AzOut.str ("SEC"), ""⟩
     | _ => ⟨0, AzOut.str (""), ""⟩⟩

/-- C4 counterexample: the lookup reports found with tenant id
`tenant-from-lookup` and the operator leaves the tenant-id prompt empty, yet
the final printed JSON carries the configured default `tenant-default`, not
the lookup's value: leaving the prompt empty accepts the prompt's default,
and the lookup value is only used when that resolved value is empty. -/
theorem C4_counterexample :
    ∃ s : St, SWA.main envC4w St.init = Res.ok () s ∧
      SWA.get_sp (SWA.spName envC4w) envC4w St.init =
        Res.ok (SpLookup.found ("CID") ("OID") ("tenant-from-lookup"))
          { St.init with
            azIdx := 2,
            calls := [["az", "ad", "sp", "show", "--id", "http://pfx-swa-deployer-sp"],
              ["az", "ad", "sp", "show", "--id", "CID", "--query", "appOwnerOrganizationId",
               "-o", "tsv"]] } ∧
      envC4w.inputs 1 = "" ∧
      credsJson ("CID") ("SEC") ("tenant-default") ("") ∈ s.printed ∧
      ¬ (credsJson ("CID") ("SEC") ("tenant-from-lookup") ("") ∈ s.printed) :=
  ⟨⟨5, 4,
    [["az", "ad", "sp", "show", "--id", "http://pfx-swa-deployer-sp"],
     ["az", "ad", "sp", "show", "--id", "CID", "--query", "appOwnerOrganizationId", "-o", "tsv"],
     ["az", "ad", "sp", "credential", "reset", "--id", "CID", "--query", "password", "-o", "tsv"],
     ["az", "role", "assignment", "create", "--assignee", "OID", "--role", "Contributor",
      "--scope", "/subscriptions//resourceGroups/rg-core"]],
    ["Service Principal name prefix [pfx-swa-deployer]: ",
     "Azure Tenant ID [tenant-default]: ",
     "Azure Subscription ID []: ",
     "Resource Group name [rg-core]: ",
     "Do you want to create an Azure Static Web App? [yes]: "],
    ["✅ Service Principal " ++ squote ++ "pfx-swa-deployer-sp" ++ squote ++ " already exists. Reusing it.",
     "🔐 Assigning role " ++ squote ++ "Contributor" ++ squote ++ " to SP at scope: /subscriptions//resourceGroups/rg-core",
     credsBanner,
     credsJson ("CID") ("SEC") ("tenant-default") (""),
     closeBanner,
     "\n✅ Copy the above JSON into GitHub repo secrets as `AZURE_CREDS`"]⟩,
   rfl, rfl, rfl, by decide, by decide⟩

/-- Witness environment for the amended C4: like `envC4w` but the defaults
file supplies no tenant id, so the resolved tenant value is empty. -/
def envC4aw : Env :=
  ⟨true, fun _ => none, fun k => if k = 4 then "no" else "",
   fun k => match k with
     | 0 => ⟨0, AzOut.json [("appId", "CID"), ("id", "OID")], ""⟩
     | 1 => ⟨0, AzOut.str ("tenant-from-lookup"), ""⟩
     | 2 => ⟨0, AzOut.str ("SEC"), ""⟩
     | _ => ⟨0, AzOut.str (""), ""⟩⟩

/-- Witness environment for the amended C4, Key Vault script: defaults file
supplies no tenant id, all prompts left empty, lookup finds the principal. -/
def envC4kw : Env :=
  ⟨true, fun _ => none, fun _ => "",
   fun k => match k with
     | 0 => ⟨0, AzOut.json [("appId", "CID"), ("id", "OID")], ""⟩
     | 1 => ⟨0, AzOut.str ("tenant-from-lookup"), ""⟩
     | 2 => ⟨0, AzOut.str ("SEC"), ""⟩
     | _ => ⟨0, AzOut.str (""), ""⟩⟩

/-- C4 amended: in either script, when the identity lookup reports found with
some tenant id and the operator-resolved tenant value is empty — the operator
leaves the prompt empty over an empty configured default — the tenantId of
the final printed JSON equals the tenant id returned by the lookup. -/
theorem C4_lookup_tenant_backfilled_when_value_empty (envS envK : Env)
    (e0 e1 e2 f0 f1 f2 : String) (r0 : Nat) (fsS fsK : List (String × String))
    (cid oid rt sec cidK oidK rtK secK : String)
    (hd : envS.defaultsPresent = true)
    (h0 : envS.resp 0 = ⟨r0, AzOut.json fsS, e0⟩)
    (hA : jfield fsS ("appId") = some cid)
    (hI : jfield fsS ("id") = some oid)
    (h1 : envS.resp 1 = ⟨0, AzOut.str rt, e1⟩)
    (h2 : envS.resp 2 = ⟨0, AzOut.str sec, e2⟩)
    (h3 : (envS.resp 3).returncode = 0)
    (hswa : pyLower (promptValue (envS.inputs 4) ("yes")) ≠ "yes")
    (hswa2 : pyLower (promptValue (envS.inputs 4) ("yes")) ≠ "y")
    (htenant : promptValue (envS.inputs 1) ((envS.defaults ("azure_tenant_id")).getD ("")) = "")
    (hdK : envK.defaultsPresent = true)
    (hscK : promptValue (envK.inputs 5) ("1") ≠ "2")
    (hK0 : envK.resp 0 = ⟨0, AzOut.json fsK, f0⟩)
    (hKA : jfield fsK ("appId") = some cidK)
    (hKI : jfield fsK ("id") = some oidK)
    (hK1 : envK.resp 1 = ⟨0, AzOut.str rtK, f1⟩)
    (hK2 : envK.resp 2 = ⟨0, AzOut.str secK, f2⟩)
    (hKsec : pyStrip secK ≠ "")
    (hK3 : (envK.resp 3).returncode = 0)
    (htenantK : promptValue (envK.inputs 1) ((envK.defaults ("azure_tenant_id")).getD ("")) = "") :
    (∃ s : St, SWA.main envS St.init = Res.ok () s ∧
      credsJson cid (pyStrip sec) (pyStrip rt) (SWA.subIn envS) ∈ s.printed) ∧
    (∃ s : St, KV.main envK St.init = Res.ok () s ∧
      credsJson cidK (pyStrip secK) (pyStrip rtK) (KV.subIn envK) ∈ s.printed) := by
  constructor
  · simp [SWA.main, SWA.load_defaults, SWA.prompt, SWA.get_sp, SWA.create_sp, SWA.az,
      SWA.reset_sp_secret, SWA.assign_rbac, SWA.create_swa_app, SWA.subIn, SWA.rgIn,
      SWA.spName, SWA.spBase, St.init,
      hd, h0, h1, h2, h3, hA, hI, hswa, hswa2, htenant]
  · simp [KV.main, KV.load_defaults, KV.prompt, KV.get_sp, KV.create_sp, KV.az,
      KV.reset_sp_secret, KV.assign_rbac, KV.get_secret_names, KV.assignSecrets,
      KV.vaultScope, KV.subIn, KV.rgIn, KV.kvIn, KV.spName, KV.repoName, St.init,
      hdK, hK0, hK1, hK2, hK3, hKA, hKI, hKsec, hscK, htenantK]

/-- C4 amended witness: concrete runs of both scripts with an empty resolved
tenant value, each printing the lookup tenant in the final JSON. -/
theorem C4_lookup_tenant_backfilled_when_value_empty_witness :
    (∃ s : St, SWA.main envC4aw St.init = Res.ok () s ∧
      credsJson ("CID") (pyStrip ("SEC")) (pyStrip ("tenant-from-lookup"))
        (SWA.subIn envC4aw) ∈ s.printed) ∧
    (∃ s : St, KV.main envC4kw St.init = Res.ok () s ∧
      credsJson ("CID") (pyStrip ("SEC")) (pyStrip ("tenant-from-lookup"))
        (KV.subIn envC4kw) ∈ s.printed) :=
  C4_lookup_tenant_backfilled_when_value_empty envC4aw envC4kw "" "" "" "" "" "" 0
    [("appId", "CID"), ("id", "OID")] [("appId", "CID"), ("id", "OID")]
    "CID" "OID" "tenant-from-lookup" "SEC" "CID" "OID" "tenant-from-lookup" "SEC"
    rfl rfl rfl rfl rfl rfl rfl (by decide) (by decide) (by decide)
    rfl (by decide) rfl rfl rfl rfl rfl (by decide) rfl (by decide)

/-- Witness environment: prefix scoping chosen (input `2`), lookup not found,
listing returns the two names `dev-a` and `dev-b`, all assignments succeed. -/
def envC2w : Env :=
  ⟨true, fun _ => none, fun k => if k = 5 then "2" else "",
   fun k => match k with
     | 0 => ⟨0, AzOut.str (""), ""⟩
     | 1 => ⟨0, AzOut.json [("clientId", "CID"), ("clientSecret", "SEC"), ("tenantId", "TID")], ""⟩
     | 2 => ⟨0, AzOut.str ("OID"), ""⟩
     | 3 => ⟨0, AzOut.str ("dev-a\ndev-b"), ""⟩
     | _ => ⟨0, AzOut.str (""), ""⟩⟩

/-- C2: in the Key Vault script with secret-prefix scoping selected, if the
vault listing yields N ≥ 1 matching names then exactly N role-assignment
calls are issued, one per matched secret in listing order, each with scope
path ending in `/secrets/<name>`; if 0 names match, the process exits with
status 1 having issued no role-assignment call. -/
theorem C2_prefix_fanout (env : Env) (e0 e1 e2 e3 : String)
    (fs : List (String × String)) (cid sec tid oid listing : String)
    (hd : env.defaultsPresent = true)
    (hsc : promptValue (env.inputs 5) ("1") = "2")
    (h0 : env.resp 0 = ⟨0, AzOut.str (""), e0⟩)
    (h1 : env.resp 1 = ⟨0, AzOut.json fs, e1⟩)
    (hc : jfield fs ("clientId") = some cid)
    (hs : jfield fs ("clientSecret") = some sec)
    (ht : jfield fs ("tenantId") = some tid)
    (h2 : env.resp 2 = ⟨0, AzOut.str oid, e2⟩)
    (h3 : env.resp 3 = ⟨0, AzOut.str listing, e3⟩)
    (h4 : ∀ k, 4 ≤ k → (env.resp k).returncode = 0) :
    (secretNamesOf listing = [] →
      ∃ s : St, KV.main env St.init = Res.exited 1 s ∧
        s.calls.filter (fun c => isRoleAssignCall c) = []) ∧
    (secretNamesOf listing ≠ [] →
      ∃ s : St, KV.main env St.init = Res.ok () s ∧
        s.calls.filter (fun c => isRoleAssignCall c) =
          (secretNamesOf listing).map (fun n =>
            roleAssignArgv (pyStrip oid) ("Key Vault Secrets User")
              (KV.vaultScope (KV.subIn env) (KV.rgIn env) (KV.kvIn env)
                ++ "/secrets/" ++ n))) := by
  constructor
  · intro h
    simp only [secretNamesOf] at h
    simp only [List.filter_eq_nil_iff, decide_not, Bool.not_eq_eq_eq_not, Bool.not_true,
      decide_eq_false_iff_not, not_not] at h
    by_cases hpl : pyStrip listing = ""
    · simp [KV.main, KV.load_defaults, KV.prompt, KV.get_sp, KV.create_sp, KV.az,
        KV.reset_sp_secret, KV.get_secret_names, KV.subIn, KV.rgIn, KV.kvIn,
        KV.spName, KV.repoName, KV.pfxIn, St.init, isRoleAssignCall,
        hd, h0, h1, h2, h3, hc, hs, ht, hsc, hpl]
    · simp [KV.main, KV.load_defaults, KV.prompt, KV.get_sp, KV.create_sp, KV.az,
        KV.reset_sp_secret, KV.get_secret_names, KV.subIn, KV.rgIn, KV.kvIn,
        KV.spName, KV.repoName, KV.pfxIn, St.init,
        hd, h0, h1, h2, h3, hc, hs, ht, hsc, hpl]
      rw [if_pos h]
      simp [isRoleAssignCall]
  · intro h
    have hpl : pyStrip listing ≠ "" := by
      intro hq
      apply h
      unfold secretNamesOf
      rw [hq]
      decide
    have hcond : ¬ ∀ a ∈ splitLines (pyStrip listing), a = "" := by
      intro hall
      apply h
      unfold secretNamesOf
      rw [List.filter_eq_nil_iff]
      intro a ha
      simp [hall a ha]
    simp [KV.main, KV.load_defaults, KV.prompt, KV.get_sp, KV.create_sp, KV.az,
      KV.reset_sp_secret, KV.get_secret_names, KV.subIn, KV.rgIn, KV.kvIn,
      KV.spName, KV.repoName, KV.pfxIn, St.init, secretNamesOf,
      hd, h0, h1, h2, h3, hc, hs, ht, hsc, hpl]
    rw [if_neg hcond]
    simp only [run_bind]
    rw [assignSecrets_run]
    · simp [isRoleAssignCall, roleAssignArgv, secretNamesOf]
      intro a x hx hxe hax
      subst hax
      rfl
    · intro k hk
      have hx := h4 (4 + k) (by omega)
      simpa using hx

/-- C2 witness: listing yields `dev-a` and `dev-b`; the run issues exactly the
two corresponding role assignments. -/
theorem C2_prefix_fanout_witness :
    (secretNamesOf ("dev-a\ndev-b") = [] →
      ∃ s : St, KV.main envC2w St.init = Res.exited 1 s ∧
        s.calls.filter (fun c => isRoleAssignCall c) = []) ∧
    (secretNamesOf ("dev-a\ndev-b") ≠ [] →
      ∃ s : St, KV.main envC2w St.init = Res.ok () s ∧
        s.calls.filter (fun c => isRoleAssignCall c) =
          (secretNamesOf ("dev-a\ndev-b")).map (fun n =>
            roleAssignArgv (pyStrip ("OID")) ("Key Vault Secrets User")
              (KV.vaultScope (KV.subIn envC2w) (KV.rgIn envC2w) (KV.kvIn envC2w)
                ++ "/secrets/" ++ n))) :=
  C2_prefix_fanout envC2w "" "" "" ""
    [("clientId", "CID"), ("clientSecret", "SEC"), ("tenantId", "TID")]
    "CID" "SEC" "TID" "OID" "dev-a\ndev-b" rfl (by decide) rfl rfl rfl rfl rfl rfl rfl
    (fun k hk => by
      obtain ⟨n, rfl⟩ : ∃ n, k = n + 4 := ⟨k - 4, by omega⟩
      rfl)
